import Mathlib

/-!
Verification of the cooperative async runtime core of the repository:
the bounded MPMC channel ring buffer (src/tarantool/src/async/future.rs),
the async mutex (src/tarantool/src/fiber/async/mutex.rs), the timeout
wrapper (src/tarantool/src/fiber/async/timeout.rs) and the TCP stream
close protocol (src/tarantool/src/network/client/tcp.rs), as shallow
embeddings in Lean.
-/

namespace TarantoolCore

/-- Number of values of the Rust `usize` type (64-bit platform); `2 ^ 64`. -/
def USIZE : Nat := 18446744073709551616

/-- Rust `a.wrapping_sub(b)` on `usize`, for `a b < USIZE`. -/
def wrappingSub (a b : Nat) : Nat := (a + USIZE - b) % USIZE

/-- Rust `a.wrapping_add(b)` on `usize`. -/
def wrappingAdd (a b : Nat) : Nat := (a + b) % USIZE

/-! ## ChannelBox (src/tarantool/src/async/future.rs, mod mpmc::fixed)

The Rust struct holds a raw `MaybeUninit<[T; N]>` buffer, `tail`/`head`
cells, and `rx_count`/`tx_count` cells of type `Option<NonZeroUsize>`.
We embed the buffer as a total function `Nat → α` (slots outside the
live region hold junk, exactly like `MaybeUninit`), and the
`Option<NonZeroUsize>` counts as plain `Nat` with `0` encoding `None`
(`is_none()` becomes `= 0`). -/

structure ChannelBox (α : Type) (N : Nat) where
  data : Nat → α
  /-- First occupied spot. -/
  tail : Nat
  /-- First empty spot. -/
  head : Nat
  rx_count : Nat
  tx_count : Nat

variable {α : Type} {N : Nat}

/-- Source: `fn len(&self) -> usize { self.head().wrapping_sub(self.tail()) % N }`. -/
def len (c : ChannelBox α N) : Nat := wrappingSub c.head c.tail % N

/-- Source: `fn is_full(&self) -> bool { N - self.len() == 1 }`. -/
def is_full (c : ChannelBox α N) : Bool := N - len c == 1

/-- Source: `fn is_empty(&self) -> bool { self.tail == self.head }`. -/
def is_empty (c : ChannelBox α N) : Bool := c.tail == c.head

/-- Source `push_back`: writes `v` at slot `head` and advances
`head := head.wrapping_add(1) % N`. -/
def push_back (c : ChannelBox α N) (v : α) : ChannelBox α N :=
  { c with
    head := wrappingAdd c.head 1 % N
    data := fun i => if i = c.head then v else c.data i }

/-- Source `try_push_back`: `Err(v)` (here `none`) when full, else pushes. -/
def try_push_back (c : ChannelBox α N) (v : α) : Option (ChannelBox α N) :=
  if is_full c then none else some (push_back c v)

/-- Source `pop_front`: reads slot `tail` and advances
`tail := tail.wrapping_add(1) % N`. -/
def pop_front (c : ChannelBox α N) : α × ChannelBox α N :=
  (c.data c.tail, { c with tail := wrappingAdd c.tail 1 % N })

/-- Source `try_pop_front`: `None` when empty, else pops. -/
def try_pop_front (c : ChannelBox α N) : Option (α × ChannelBox α N) :=
  if is_empty c then none else some (pop_front c)

inductive TrySendError
  | Disconnected
  | Full

inductive TryRecvError
  | Disconnected
  | Empty

/-- Source `ChannelBox::try_send`. Returns the result, the new state and
whether `coord.wake()` was invoked (the Bool component). -/
def try_send (c : ChannelBox α N) (v : α) :
    Except TrySendError Unit × ChannelBox α N × Bool :=
  if c.rx_count = 0 then
    (Except.error TrySendError.Disconnected, c, false)
  else
    let was_empty := is_empty c
    match try_push_back c v with
    | none => (Except.error TrySendError.Full, c, false)
    | some c2 => (Except.ok (), c2, was_empty)

/-- Source `ChannelBox::try_recv`. Returns the result, the new state and
whether `coord.wake()` was invoked. -/
def try_recv (c : ChannelBox α N) :
    Except TryRecvError α × ChannelBox α N × Bool :=
  if c.tx_count = 0 ∧ is_empty c = true then
    (Except.error TryRecvError.Disconnected, c, false)
  else
    let was_full := is_full c
    match try_pop_front c with
    | some vc => (Except.ok vc.1, vc.2, was_full)
    | none => (Except.error TryRecvError.Empty, c, false)

/-- Outcome of one scheduling step of the blocking `ChannelBox::send`. -/
inductive SendOutcome (α : Type) (N : Nat)
  | disconnected
  | blocked
  | sent (c2 : ChannelBox α N) (wake : Bool)

/-- Source `ChannelBox::send`, body after the initial receiver check:
`while self.is_full() { coord.wait() }` (a `blocked` outcome models one
suspension inside the loop), then `if self.rx().is_none() { return Err(v) }`,
then the push, waking the primitive when the buffer was empty before it. -/
def send_resume (c : ChannelBox α N) (v : α) : SendOutcome α N :=
  if is_full c then SendOutcome.blocked
  else if c.rx_count = 0 then SendOutcome.disconnected
  else SendOutcome.sent (push_back c v) (is_empty c)

/-- Source `ChannelBox::send` entry: `if self.rx().is_none() { return Err(v) }`
and then the loop body modelled by `send_resume`. -/
def send_enter (c : ChannelBox α N) (v : α) : SendOutcome α N :=
  if c.rx_count = 0 then SendOutcome.disconnected
  else send_resume c v

/-- Source `impl Drop for Receiver` (from `impl_channel_part!`): the drop
only decrements `rx_count` (panicking on underflow, modelled by `none`) and
frees the box when both counts are zero; it never invokes `coord.wake()`,
which the constantly-`false` Bool component records. -/
def drop_rx (c : ChannelBox α N) : Option (ChannelBox α N × Bool) :=
  if c.rx_count = 0 then none
  else some ({ c with rx_count := c.rx_count - 1 }, false)

/-- Well-formedness of a channel state: the capacity fits in `usize` and the
indices are reduced modulo `N`, as every state produced by the constructor
and the operations is. -/
def WF (c : ChannelBox α N) : Prop := N < USIZE ∧ c.tail < N ∧ c.head < N

/-- The number of occupied slots actually present in the cyclic region
`[tail, head)` — what the doc comment of the source `len` promises
(the source computes `wrapping_sub` instead, which differs once the
indices wrap around, unless `N` divides `2 ^ 64`). -/
def trueLen (c : ChannelBox α N) : Nat := (c.head + N - c.tail) % N

/-- The values logically present in the buffer, in FIFO order: the slots
of the cyclic region `[tail, head)`. -/
def contents (c : ChannelBox α N) : List α :=
  (List.range (trueLen c)).map fun i => c.data ((c.tail + i) % N)

/-- Repeatedly call `try_recv`, collecting the received values; stops on
the first error (fuelled so the recursion is structural). -/
def drain : Nat → ChannelBox α N → List α × ChannelBox α N
  | 0, c => ([], c)
  | fuel+1, c =>
    match try_recv c with
    | (Except.ok v, c2, _) =>
      let p := drain fuel c2
      (v :: p.1, p.2)
    | (Except.error _, c2, _) => ([], c2)

/-! ## Coordination Primitive (spec-modelled)

The concrete `crate::fiber::Cond` lives in the fiber engine, outside the
sources under verification; only the `impl Coord for Rc<Cond>` adapter in
src/tarantool/src/async/future.rs is available. -/

/-- Modelled from the spec: the fiber engine Coordination Primitive behind
`crate::fiber::Cond`, whose implementation is not among the sources. Per the
spec it is a shared waitable handle and a wake releases all current waiters.
`waiters` lists the fibers currently blocked in `wait` or `wait_timeout`. -/
structure Cond where
  waiters : List Nat

/-- Modelled from the spec: a fiber `f` calling `wait()` or `wait_timeout(d)`
on the primitive suspends, joining the waiter set. -/
def condWait (c : Cond) (f : Nat) : Cond :=
  { waiters := c.waiters ++ [f] }

/-- Modelled from the spec: `Cond::signal` releases all current waiters
(returned in the second component), leaving none blocked. -/
def condSignal (c : Cond) : Cond × List Nat :=
  ({ waiters := [] }, c.waiters)

/-- Source `impl Coord for Rc<Cond>`: `fn wake(&self) { Cond::signal(self) }`. -/
def coordWake (c : Cond) : Cond × List Nat := condSignal c

/-! ## Async Mutex (src/tarantool/src/fiber/async/mutex.rs)

`Waker` identities are embedded as `Nat`; `will_wake` is identity
comparison. The protected `data` cell is irrelevant to the claims and
omitted. -/

structure AMutex where
  locked : Bool
  wakers : List Nat

/-- Source `Mutex::new`: unlocked, no pending wakers. -/
def mutexNew : AMutex := { locked := false, wakers := [] }

/-- Source `Mutex::try_lock`: `None` (here `false`) when locked, else a
guard, whose construction (`MutexGuard::new`) sets `locked` to true. -/
def try_lock (m : AMutex) : Bool × AMutex :=
  if m.locked then (false, m)
  else (true, { m with locked := true })

/-- Source `Mutex::add_waker`: push the waker unless an identical one
(`will_wake`) is already registered. -/
def add_waker (m : AMutex) (w : Nat) : AMutex :=
  if m.wakers.contains w then m
  else { m with wakers := m.wakers ++ [w] }

/-- Source `impl Future for Lock::poll`: when locked, register the waker
and return Pending (`false`); else yield a guard (`true`), setting
`locked`. -/
def lock_poll (m : AMutex) (w : Nat) : Bool × AMutex :=
  if m.locked then (false, add_waker m w)
  else (true, { m with locked := true })

/-- Source `Mutex::wake_all`: drain the waker list, waking every entry
(the second component lists the woken wakers). -/
def wake_all (m : AMutex) : AMutex × List Nat :=
  ({ m with wakers := [] }, m.wakers)

/-- Source `impl Drop for MutexGuard`: set `locked` to false, then
`wake_all`. -/
def guard_drop (m : AMutex) : AMutex × List Nat :=
  wake_all { m with locked := false }

/-- The source declares no `Drop` impl for `Lock`, so dropping the future
runs only the trivial compiler-generated destructor: the mutex state
(`locked` flag and waker list alike) is untouched. -/
def lock_future_drop (m : AMutex) : AMutex := m

/-- A mutex together with the number of live `MutexGuard` values. -/
structure MutexSys where
  m : AMutex
  guards : Nat

/-- One interleaving step of concurrent lock users: a `try_lock` call, a
poll of a `lock()` future, the drop of a live guard, or the drop of a
pending `lock()` future. -/
inductive MStep : MutexSys → MutexSys → Prop
  | tryLockStep (s : MutexSys) :
      MStep s ⟨(try_lock s.m).2, if (try_lock s.m).1 then s.guards + 1 else s.guards⟩
  | lockPollStep (s : MutexSys) (w : Nat) :
      MStep s ⟨(lock_poll s.m w).2, if (lock_poll s.m w).1 then s.guards + 1 else s.guards⟩
  | guardDropStep (s : MutexSys) :
      0 < s.guards → MStep s ⟨(guard_drop s.m).1, s.guards - 1⟩
  | lockDropStep (s : MutexSys) :
      MStep s ⟨lock_future_drop s.m, s.guards⟩

/-- Initial system: a fresh mutex and no guards. -/
def mutexInit : MutexSys := ⟨mutexNew, 0⟩

/-- States reachable by any interleaving of lock attempts, guard drops and
future drops. -/
inductive MReach : MutexSys → Prop
  | init : MReach mutexInit
  | step {s s2 : MutexSys} : MReach s → MStep s s2 → MReach s2

/-! ## Timeout (src/tarantool/src/fiber/async/timeout.rs)

Instants are `Nat`; the inner future is abstracted by its poll outcome,
`none` for Pending and `some r` for `Ready(r)`. -/

structure Timeout where
  extra_check : Bool
  deadline : Option Nat

/-- Source `timeout(duration, f)` and `deadline(instant, f)`: both set
`extra_check` to true; `timeout` computes
`deadline = fiber::clock().checked_add(timeout)`, which is `None` exactly
when the addition overflows the clock type. -/
def timeoutOf (d : Option Nat) : Timeout := ⟨true, d⟩

/-- Source `Timeout::no_extra_check`: disable the extra check. -/
def no_extra_check (t : Timeout) : Timeout := { t with extra_check := false }

/-- Source poll: `deadline.map(|v| clock() >= v).unwrap_or(false)`. -/
def is_timeout (deadline : Option Nat) (now : Nat) : Bool :=
  match deadline with
  | some v => decide (v ≤ now)
  | none => false

inductive TimeoutResult (β ε : Type)
  | ok (b : β)
  | failed (e : ε)
  | expired

/-- Source `v.map_err(Error::Failed)` on the ready inner value. -/
def mapInner {β ε : Type} : Except ε β → TimeoutResult β ε
  | Except.ok b => TimeoutResult.ok b
  | Except.error e => TimeoutResult.failed e

inductive TimeoutPoll (β ε : Type)
  | Ready (r : TimeoutResult β ε)
  | Pending (registered : Option Nat)

/-- Source `impl Future for Timeout::poll`. The Bool component records
whether the inner future was polled during this call; a `Pending`
carries the deadline registered via `ContextExt::set_deadline` (`none`
when no deadline exists and no suspension reason is registered). -/
def Timeout.poll {β ε : Type} (t : Timeout) (now : Nat)
    (inner : Option (Except ε β)) : TimeoutPoll β ε × Bool :=
  let it := is_timeout t.deadline now
  if t.extra_check || !it then
    match inner with
    | some r => (TimeoutPoll.Ready (mapInner r), true)
    | none =>
      if it then (TimeoutPoll.Ready TimeoutResult.expired, true)
      else (TimeoutPoll.Pending t.deadline, true)
  else
    if it then (TimeoutPoll.Ready TimeoutResult.expired, false)
    else (TimeoutPoll.Pending t.deadline, false)

/-! ## TcpStream close protocol (src/tarantool/src/network/client/tcp.rs)

All clones of a stream share one `Rc<Cell<Option<RawFd>>>`; the shared
cell is the state. Each operation reports how many times the underlying
OS close was invoked. -/

inductive TcpOp
  | opClose
  | opPollClose
  | opRead
  | opWrite
  | opFlush
  | opDrop

inductive TcpIoResult
  | closedError
  | syscalled (fd : Int)
  | flushedOk
  | closedOk

/-- One operation on the shared descriptor cell, following the source:
`close` takes the cell (`Some` to `None`) and invokes `coio_close` once,
or returns `Ok(())` untouched when already `None`; `poll_read`,
`poll_write`, `poll_flush` and `poll_close` fail fast with the
socket-closed error when the cell is `None`; `Drop` calls `close`.
The middle component counts OS close invocations. -/
def tcpStep (s : Option Int) (op : TcpOp) : Option Int × Nat × TcpIoResult :=
  match op, s with
  | TcpOp.opRead, none => (none, 0, TcpIoResult.closedError)
  | TcpOp.opRead, some fd => (some fd, 0, TcpIoResult.syscalled fd)
  | TcpOp.opWrite, none => (none, 0, TcpIoResult.closedError)
  | TcpOp.opWrite, some fd => (some fd, 0, TcpIoResult.syscalled fd)
  | TcpOp.opFlush, none => (none, 0, TcpIoResult.closedError)
  | TcpOp.opFlush, some fd => (some fd, 0, TcpIoResult.flushedOk)
  | TcpOp.opClose, none => (none, 0, TcpIoResult.closedOk)
  | TcpOp.opClose, some _ => (none, 1, TcpIoResult.closedOk)
  | TcpOp.opPollClose, none => (none, 0, TcpIoResult.closedError)
  | TcpOp.opPollClose, some _ => (none, 1, TcpIoResult.closedOk)
  | TcpOp.opDrop, none => (none, 0, TcpIoResult.closedOk)
  | TcpOp.opDrop, some _ => (none, 1, TcpIoResult.closedOk)

/-- Run a sequence of operations on the shared cell, accumulating the
total number of OS close invocations. -/
def runTcp (s : Option Int) : List TcpOp → Option Int × Nat
  | [] => (s, 0)
  | op :: rest =>
    let r := tcpStep s op
    let rr := runTcp r.1 rest
    (rr.1, r.2.1 + rr.2)

/-! ## Unimplemented public send path (src/tarantool/src/async/future.rs) -/

/-- A computation that either diverges with a panic or yields a value. -/
inductive PanicOr (β : Type)
  | panics
  | value (b : β)

/-- Source `Sender::send`: the entire body is `todo!()`, so for every
sender and value the call panics before a `Send` future is built. -/
def sender_send (_c : ChannelBox α N) (_v : α) : PanicOr Unit :=
  PanicOr.panics

/-- Source `impl Future for Send::poll`: the body is `todo!()`, so any
poll of the public `Send` future panics. -/
def send_future_poll (_c : ChannelBox α N) (_waker : Nat) : PanicOr Unit :=
  PanicOr.panics

/-! ## Concrete states used in the settled claims -/

/-- Capacity-3 channel state reached from a fresh channel (one sender, one
receiver) by `try_send 1`, `try_send 2`, `try_recv`, `try_send 3`: it has
`tail = 1`, `head = 0`, holding the two values `2` and `3`. -/
def c1s4 : ChannelBox Nat 3 :=
  (try_send (try_recv (try_send (try_send
    (⟨fun _ => 0, 0, 0, 1, 1⟩ : ChannelBox Nat 3) 1).2.1 2).2.1).2.1 3).2.1

/-! ## Ring buffer lemmas -/

lemma is_empty_iff {c : ChannelBox α N} : is_empty c = true ↔ c.tail = c.head := by
  simp [is_empty]

lemma is_empty_false_iff {c : ChannelBox α N} : is_empty c = false ↔ c.tail ≠ c.head := by
  simp [is_empty]

lemma trueLen_eq {c : ChannelBox α N} (hwf : WF c) :
    trueLen c = if c.tail ≤ c.head then c.head - c.tail else c.head + N - c.tail := by
  obtain ⟨_, ht, hh⟩ := hwf
  unfold trueLen
  rcases le_or_lt c.tail c.head with h | h
  · have hx : c.head + N - c.tail = N + (c.head - c.tail) := by omega
    rw [hx, Nat.add_mod_left, Nat.mod_eq_of_lt (by omega), if_pos h]
  · rw [Nat.mod_eq_of_lt (by omega), if_neg (by omega)]

lemma trueLen_zero_iff {c : ChannelBox α N} (hwf : WF c) :
    trueLen c = 0 ↔ c.tail = c.head := by
  have ht := hwf.2.1
  have hh := hwf.2.2
  rw [trueLen_eq hwf]
  split <;> omega

lemma pop_tail {c : ChannelBox α N} (hwf : WF c) :
    (pop_front c).2.tail = (c.tail + 1) % N := by
  have hU := hwf.1
  have ht := hwf.2.1
  show wrappingAdd c.tail 1 % N = _
  unfold wrappingAdd
  rw [Nat.mod_eq_of_lt (show c.tail + 1 < USIZE by omega)]

lemma pop_wf {c : ChannelBox α N} (hwf : WF c) : WF (pop_front c).2 := by
  have hN : 0 < N := Nat.lt_of_le_of_lt (Nat.zero_le c.tail) hwf.2.1
  refine ⟨hwf.1, ?_, hwf.2.2⟩
  rw [pop_tail hwf]
  exact Nat.mod_lt _ hN

lemma pop_trueLen {c : ChannelBox α N} (hwf : WF c) (hne : c.tail ≠ c.head) :
    trueLen (pop_front c).2 = trueLen c - 1 := by
  have ht := hwf.2.1
  have hh := hwf.2.2
  have hhd : (pop_front c).2.head = c.head := rfl
  rw [trueLen_eq (pop_wf hwf), trueLen_eq hwf, hhd, pop_tail hwf]
  rcases Nat.lt_or_ge (c.tail + 1) N with h1 | h1
  · rw [Nat.mod_eq_of_lt h1]
    split_ifs <;> omega
  · have h2 : c.tail + 1 = N := by omega
    rw [h2, Nat.mod_self]
    split_ifs <;> omega

lemma pop_contents {c : ChannelBox α N} (hwf : WF c) (hne : c.tail ≠ c.head) :
    contents c = c.data c.tail :: contents (pop_front c).2 := by
  have ht := hwf.2.1
  have hL : trueLen c ≠ 0 := fun h => hne ((trueLen_zero_iff hwf).mp h)
  obtain ⟨L, hLs⟩ : ∃ L, trueLen c = L + 1 := ⟨trueLen c - 1, by omega⟩
  have hL2 : trueLen (pop_front c).2 = L := by
    rw [pop_trueLen hwf hne, hLs]
    omega
  have hdata : (pop_front c).2.data = c.data := rfl
  unfold contents
  rw [hLs, hL2, List.range_succ_eq_map, List.map_cons, List.map_map]
  congr 1
  · congr 1
    rw [Nat.add_zero, Nat.mod_eq_of_lt ht]
  · congr 1
    funext i
    simp only [Function.comp, hdata, pop_tail hwf, Nat.succ_eq_add_one]
    congr 1
    rw [Nat.mod_add_mod]
    congr 1
    omega

lemma try_recv_disconnected {c : ChannelBox α N} (h1 : c.tx_count = 0)
    (h2 : is_empty c = true) :
    try_recv c = (Except.error TryRecvError.Disconnected, c, false) := by
  simp [try_recv, h1, h2]

lemma try_recv_nonempty {c : ChannelBox α N} (h : is_empty c = false) :
    try_recv c = (Except.ok (pop_front c).1, (pop_front c).2, is_full c) := by
  simp [try_recv, try_pop_front, h]

lemma try_recv_empty_senders {c : ChannelBox α N} (h1 : c.tx_count ≠ 0)
    (h2 : is_empty c = true) :
    try_recv c = (Except.error TryRecvError.Empty, c, false) := by
  simp [try_recv, try_pop_front, h1, h2]

lemma drain_go : ∀ (fuel : Nat) (c : ChannelBox α N), WF c → c.tx_count = 0 →
    trueLen c = fuel →
      (drain fuel c).1 = contents c
    ∧ (drain fuel c).2.tx_count = 0
    ∧ is_empty (drain fuel c).2 = true
    ∧ WF (drain fuel c).2
  | 0, c, hwf, htx, hlen => by
    have he : is_empty c = true := is_empty_iff.mpr ((trueLen_zero_iff hwf).mp hlen)
    refine ⟨?_, htx, he, hwf⟩
    simp [drain, contents, hlen]
  | fuel+1, c, hwf, htx, hlen => by
    have hne : c.tail ≠ c.head := by
      intro h
      rw [(trueLen_zero_iff hwf).mpr h] at hlen
      exact Nat.succ_ne_zero fuel hlen.symm
    have he : is_empty c = false := is_empty_false_iff.mpr hne
    have hrecv := try_recv_nonempty he
    have hwf2 := pop_wf hwf
    have htx2 : (pop_front c).2.tx_count = 0 := htx
    have hlen2 : trueLen (pop_front c).2 = fuel := by
      rw [pop_trueLen hwf hne, hlen]
      omega
    obtain ⟨ih1, ih2, ih3, ih4⟩ := drain_go fuel (pop_front c).2 hwf2 htx2 hlen2
    have hdr : drain (fuel+1) c =
        ((pop_front c).1 :: (drain fuel (pop_front c).2).1,
          (drain fuel (pop_front c).2).2) := by
      simp [drain, hrecv]
    rw [hdr]
    refine ⟨?_, ih2, ih3, ih4⟩
    simp only [ih1]
    exact (pop_contents hwf hne).symm

/-! ## Claim C1 -/

/-- Claim C1, failing input: the claimed ring invariant (buffer full iff it
holds N minus 1 items, iff advancing head would equal tail, with try_send
then reporting Full) is violated by the code. At capacity 3, the reachable
state c1s4 (tail 1, head 0, reached by three sends and one receive) holds
2 = N minus 1 items, so by the claim (and by the doc comment of the source
len) it is full and the next send must report Full; but the source len,
computed as head.wrapping_sub(tail) mod N, returns 0 there because 2 pow 64
is congruent to 1 mod 3, so is_full is false, the fourth try_send succeeds,
and afterwards tail equals head: the code then regards the buffer as empty
although it has seen four pushes and one pop. -/
theorem c1_ring_invariant_failing_input :
    c1s4.tail = 1 ∧ c1s4.head = 0
  ∧ trueLen c1s4 = 2 ∧ len c1s4 = 0
  ∧ is_full c1s4 = false
  ∧ (try_send c1s4 4).1 = Except.ok ()
  ∧ is_empty (try_send c1s4 4).2.1 = true :=
  ⟨rfl, rfl, rfl, rfl, rfl, rfl, rfl⟩

/-! ## Claim C2 -/

/-- Claim C2, counterexample: a capacity-2 channel with one sender and one
receiver whose single usable slot is occupied. A blocking send suspends in
the wait loop (outcome blocked); dropping the last receiver only
decrements the count to zero and emits no wake on the coordination
primitive, so the suspended sender is not woken by the drop, contrary to
the claim that it is woken and fails Disconnected immediately. -/
theorem c2_counterexample :
    send_enter (⟨fun _ => 0, 0, 1, 1, 1⟩ : ChannelBox Nat 2) 9 = SendOutcome.blocked
  ∧ (drop_rx (⟨fun _ => 0, 0, 1, 1, 1⟩ : ChannelBox Nat 2)).map (fun p => p.2)
      = some false
  ∧ (drop_rx (⟨fun _ => 0, 0, 1, 1, 1⟩ : ChannelBox Nat 2)).map (fun p => p.1.rx_count)
      = some 0 :=
  ⟨rfl, rfl, rfl⟩

/-- Claim C2, amended: a send entered after the last receiver is gone fails
Disconnected immediately; a blocking sender that leaves the wait loop
re-checks receiver existence and fails Disconnected instead of writing;
but the receiver drop itself never emits a wake (and with no receivers
left, try_send emits none either), so a sender already suspended at the
moment of the drop is not woken by it. -/
theorem c2_send_rechecks_receiver (c : ChannelBox α N) (v : α) :
    (c.rx_count = 0 → send_enter c v = SendOutcome.disconnected)
  ∧ (is_full c = false → c.rx_count = 0 → send_resume c v = SendOutcome.disconnected)
  ∧ (∀ c2 w, drop_rx c = some (c2, w) → w = false)
  ∧ (c.rx_count = 0 → (try_send c v).2.2 = false) := by
  refine ⟨?_, ?_, ?_, ?_⟩
  · intro h
    simp [send_enter, h]
  · intro h1 h2
    simp [send_resume, h1, h2]
  · intro c2 w h
    unfold drop_rx at h
    split at h
    · exact absurd h (by simp)
    · simp only [Option.some.injEq, Prod.mk.injEq] at h
      exact h.2.symm
  · intro h
    simp [try_send, h]

/-- Claim C2, witness for the amended theorem at a concrete state with no
receivers. -/
theorem c2_witness :
    send_enter (⟨fun _ => 0, 0, 0, 0, 1⟩ : ChannelBox Nat 2) 7
      = SendOutcome.disconnected :=
  (c2_send_rechecks_receiver (⟨fun _ => 0, 0, 0, 0, 1⟩ : ChannelBox Nat 2) 7).1 rfl

/-! ## Claim C3 -/

/-- Claim C3: waking the Coordination Primitive releases every fiber
currently blocked in wait or wait_timeout on it, not just one waiter
(the primitive is spec-modelled, its implementation being outside the
sources; the src adapter delegates wake to the signal operation). -/
theorem c3_wake_releases_all_waiters (c : Cond) (f : Nat) (hf : f ∈ c.waiters) :
    f ∈ (coordWake c).2 ∧ (coordWake c).1.waiters = [] :=
  ⟨hf, rfl⟩

/-- Claim C3, witness: a primitive with two blocked fibers, both released. -/
theorem c3_witness :
    3 ∈ (coordWake (⟨[3, 5]⟩ : Cond)).2
  ∧ (coordWake (⟨[3, 5]⟩ : Cond)).1.waiters = [] :=
  c3_wake_releases_all_waiters (⟨[3, 5]⟩ : Cond) 3 (by decide)

/-! ## Claim C4 -/

/-- Claim C4: a successful try_send wakes the coordination primitive iff
the buffer was empty immediately before the push, a successful try_recv
wakes it iff the buffer was full immediately before the pop, the blocking
send obeys the same push rule, and no wakeup is missed: whenever an
operation falsifies the wait predicate of a blocked party (is_empty for a
blocked receiver, is_full for a blocked sender), that operation emits a
wake. -/
theorem c4_wake_iff_transition (c : ChannelBox α N) (v : α) :
    ((try_send c v).1 = Except.ok () → ((try_send c v).2.2 = true ↔ is_empty c = true))
  ∧ (∀ v2, (try_recv c).1 = Except.ok v2 → ((try_recv c).2.2 = true ↔ is_full c = true))
  ∧ (is_empty c = true → is_empty (try_send c v).2.1 = false → (try_send c v).2.2 = true)
  ∧ (is_full c = true → is_full (try_recv c).2.1 = false → (try_recv c).2.2 = true)
  ∧ (∀ c2 w, send_resume c v = SendOutcome.sent c2 w → (w = true ↔ is_empty c = true)) := by
  refine ⟨?_, ?_, ?_, ?_, ?_⟩
  · intro h
    by_cases hr : c.rx_count = 0
    · simp [try_send, hr] at h
    · rcases hp : try_push_back c v with _ | c2
      · simp [try_send, hr, hp] at h
      · simp [try_send, hr, hp]
  · intro v2 h
    by_cases hd : c.tx_count = 0 ∧ is_empty c = true
    · simp [try_recv, hd] at h
    · rcases hp : try_pop_front c with _ | vc
      · simp [try_recv, hd, hp] at h
      · simp [try_recv, hd, hp]
  · intro h1 h2
    by_cases hr : c.rx_count = 0
    · simp [try_send, hr, h1] at h2
    · rcases hp : try_push_back c v with _ | c2
      · simp [try_send, hr, hp, h1] at h2
      · simp [try_send, hr, hp, h1]
  · intro h1 h2
    by_cases hd : c.tx_count = 0 ∧ is_empty c = true
    · simp [try_recv, hd, h1] at h2
    · rcases hp : try_pop_front c with _ | vc
      · simp [try_recv, hd, hp, h1] at h2
      · simp [try_recv, hd, hp, h1]
  · intro c2 w h
    unfold send_resume at h
    split at h
    · exact absurd h (by simp)
    · split at h
      · exact absurd h (by simp)
      · injection h with h1 h2
        rw [← h2]

/-- Claim C4, witness: sending into a fresh empty channel succeeds and the
wake condition evaluates on both sides of the iff. -/
theorem c4_witness :
    (try_send (⟨fun _ => 0, 0, 0, 1, 1⟩ : ChannelBox Nat 2) 5).2.2 = true
  ↔ is_empty (⟨fun _ => 0, 0, 0, 1, 1⟩ : ChannelBox Nat 2) = true :=
  (c4_wake_iff_transition (⟨fun _ => 0, 0, 0, 1, 1⟩ : ChannelBox Nat 2) 5).1 rfl

/-! ## Claim C5 -/

/-- Claim C5: each poll of a Timeout computes is_timeout from the optional
deadline and the clock; when extra_check or not yet timed out it polls the
inner future first and a Ready inner value is returned (mapped through
mapInner) regardless of expiry; when the inner future is Pending and the
deadline has passed it returns Expired, having polled the inner future
exactly when extra_check is set; a None deadline never yields Expired;
no_extra_check removes the final inner poll at expiry; and before the
deadline a Pending inner future leaves the wrapper Pending with the
deadline registered. -/
theorem c5_timeout_poll (t : Timeout) (now : Nat) (inner : Option (Except ε β)) :
    (∀ r, inner = some r → (t.extra_check || !is_timeout t.deadline now) = true →
        Timeout.poll t now inner = (TimeoutPoll.Ready (mapInner r), true))
  ∧ (t.extra_check = true → ∀ r, inner = some r →
        Timeout.poll t now inner = (TimeoutPoll.Ready (mapInner r), true))
  ∧ (inner = none → is_timeout t.deadline now = true →
        (Timeout.poll t now inner).1 = TimeoutPoll.Ready TimeoutResult.expired
      ∧ (Timeout.poll t now inner).2 = t.extra_check)
  ∧ (t.deadline = none →
        (Timeout.poll t now inner).1 ≠ TimeoutPoll.Ready TimeoutResult.expired)
  ∧ (is_timeout t.deadline now = true →
        Timeout.poll (no_extra_check t) now inner
          = (TimeoutPoll.Ready TimeoutResult.expired, false))
  ∧ (is_timeout t.deadline now = false → inner = none →
        Timeout.poll t now inner = (TimeoutPoll.Pending t.deadline, true)) := by
  refine ⟨?_, ?_, ?_, ?_, ?_, ?_⟩
  · intro r hr hp
    simp [Timeout.poll, hr, hp]
  · intro he r hr
    simp [Timeout.poll, hr, he]
  · intro hi hit
    by_cases hec : t.extra_check <;> simp [Timeout.poll, hi, hit, hec]
  · intro hd
    rcases inner with _ | r
    · simp [Timeout.poll, is_timeout, hd]
    · cases r <;> simp [Timeout.poll, is_timeout, hd, mapInner]
  · intro hit
    rcases inner with _ | r <;> simp [Timeout.poll, no_extra_check, hit]
  · intro hit hi
    simp [Timeout.poll, hit, hi]

/-- Claim C5, witness: an already-expired deadline with a Pending inner
future yields Expired on the very first poll, the inner future having
been polled once (default extra_check). -/
theorem c5_witness :
    (Timeout.poll (timeoutOf (some 0)) 5 (none : Option (Except Nat Nat))).1
      = TimeoutPoll.Ready TimeoutResult.expired
  ∧ (Timeout.poll (timeoutOf (some 0)) 5 (none : Option (Except Nat Nat))).2 = true := by
  have h := (c5_timeout_poll (timeoutOf (some 0)) 5
    (none : Option (Except Nat Nat))).2.2.1 rfl (by decide)
  exact ⟨h.1, h.2⟩

/-! ## Claim C6 -/

/-- Claim C6: try_recv returns Disconnected iff the live-sender count is
zero and the buffer is empty; Empty is returned exactly when the buffer is
empty while a sender still exists; and with all senders gone, repeatedly
calling try_recv drains every buffered value in FIFO order, after which
the next try_recv reports Disconnected. -/
theorem c6_try_recv_semantics (c : ChannelBox α N) (hwf : WF c) :
    ((try_recv c).1 = Except.error TryRecvError.Disconnected ↔
        c.tx_count = 0 ∧ is_empty c = true)
  ∧ ((try_recv c).1 = Except.error TryRecvError.Empty ↔
        is_empty c = true ∧ c.tx_count ≠ 0)
  ∧ (c.tx_count = 0 →
        (drain (trueLen c) c).1 = contents c
      ∧ (try_recv (drain (trueLen c) c).2).1 = Except.error TryRecvError.Disconnected) := by
  refine ⟨?_, ?_, ?_⟩
  · by_cases he : is_empty c = true
    · by_cases htx : c.tx_count = 0
      · rw [try_recv_disconnected htx he]
        simp [htx, he]
      · rw [try_recv_empty_senders htx he]
        simp [htx]
    · have he2 : is_empty c = false := by simpa using he
      rw [try_recv_nonempty he2]
      simp [he2]
  · by_cases he : is_empty c = true
    · by_cases htx : c.tx_count = 0
      · rw [try_recv_disconnected htx he]
        simp [htx]
      · rw [try_recv_empty_senders htx he]
        simp [htx, he]
    · have he2 : is_empty c = false := by simpa using he
      rw [try_recv_nonempty he2]
      simp [he2]
  · intro htx
    obtain ⟨h1, h2, h3, _⟩ := drain_go (trueLen c) c hwf htx rfl
    refine ⟨h1, ?_⟩
    rw [try_recv_disconnected h2 h3]

/-- Claim C6, witness: a capacity-2 channel holding one value with zero
senders drains that value and then reports Disconnected. -/
theorem c6_witness :
    (drain (trueLen (⟨fun _ => 0, 0, 1, 1, 0⟩ : ChannelBox Nat 2))
        (⟨fun _ => 0, 0, 1, 1, 0⟩ : ChannelBox Nat 2)).1
      = contents (⟨fun _ => 0, 0, 1, 1, 0⟩ : ChannelBox Nat 2)
  ∧ (try_recv (drain (trueLen (⟨fun _ => 0, 0, 1, 1, 0⟩ : ChannelBox Nat 2))
        (⟨fun _ => 0, 0, 1, 1, 0⟩ : ChannelBox Nat 2)).2).1
      = Except.error TryRecvError.Disconnected :=
  (c6_try_recv_semantics (⟨fun _ => 0, 0, 1, 1, 0⟩ : ChannelBox Nat 2)
    (by refine ⟨?_, ?_, ?_⟩ <;> decide)).2.2 rfl

/-! ## Claim C7 -/

lemma mstep_preserves {s s2 : MutexSys} (hs : MStep s s2)
    (ih : s.guards = if s.m.locked then 1 else 0) :
    s2.guards = if s2.m.locked then 1 else 0 := by
  cases hs with
  | tryLockStep =>
    by_cases hl : s.m.locked
    · simpa [try_lock, hl] using ih
    · simp [try_lock, hl] at ih ⊢
      omega
  | lockPollStep w =>
    by_cases hl : s.m.locked
    · by_cases hw : w ∈ s.m.wakers
      · simpa [lock_poll, add_waker, hl, hw] using ih
      · simpa [lock_poll, add_waker, hl, hw] using ih
    · simp [lock_poll, hl] at ih ⊢
      omega
  | guardDropStep hg =>
    by_cases hl : s.m.locked <;> simp [guard_drop, wake_all, hl] at ih ⊢ <;> omega
  | lockDropStep =>
    simpa [lock_future_drop] using ih

lemma mreach_guard_count {s : MutexSys} (h : MReach s) :
    s.guards = if s.m.locked then 1 else 0 := by
  induction h with
  | init => rfl
  | step hr hs ih => exact mstep_preserves hs ih

/-- Claim C7: across every interleaving of lock attempts, guard drops and
future drops, at most one live MutexGuard exists at any instant; a poll of
the lock future yields a guard exactly when the flag is clear (setting it),
otherwise it registers the waker and stays Pending; try_lock never
suspends and yields nothing whenever the flag is set. -/
theorem c7_at_most_one_guard (s : MutexSys) (h : MReach s) :
    s.guards ≤ 1
  ∧ (∀ m w, m.locked = true → lock_poll m w = (false, add_waker m w))
  ∧ (∀ m w, m.locked = false → lock_poll m w = (true, { m with locked := true }))
  ∧ (∀ m, m.locked = true → try_lock m = (false, m))
  ∧ (∀ m, m.locked = false → (try_lock m).1 = true ∧ (try_lock m).2.locked = true) := by
  refine ⟨?_, ?_, ?_, ?_, ?_⟩
  · have hc := mreach_guard_count h
    by_cases hl : s.m.locked <;> simp [hl] at hc <;> omega
  · intro m w hl
    simp [lock_poll, hl]
  · intro m w hl
    simp [lock_poll, hl]
  · intro m hl
    simp [try_lock, hl]
  · intro m hl
    simp [try_lock, hl]

/-- Claim C7, witness: the initial system is reachable and has no guards. -/
theorem c7_witness : mutexInit.guards ≤ 1 :=
  (c7_at_most_one_guard mutexInit MReach.init).1

/-! ## Claim C8 -/

/-- Claim C8, counterexample: on a locked mutex, a poll of the lock future
with waker 7 returns Pending after registering the waker; dropping the
future (the source has no Drop impl for Lock) leaves the waker list
unchanged, so the waker is still registered, contrary to the claim that
the drop removes it (the locked flag is indeed untouched). -/
theorem c8_counterexample :
    (lock_poll (⟨true, []⟩ : AMutex) 7).1 = false
  ∧ (lock_future_drop ((lock_poll (⟨true, []⟩ : AMutex) 7).2)).wakers.contains 7 = true
  ∧ (lock_future_drop ((lock_poll (⟨true, []⟩ : AMutex) 7).2)).locked = true :=
  ⟨rfl, rfl, rfl⟩

/-- Claim C8, amended: dropping a Lock future that was polled Pending is a
no-op on the mutex: the locked flag and the waker list are both left
unchanged (so the registered waker is not removed); the stale waker is
drained only at the next guard drop, whose wake_all empties the list. -/
theorem c8_lock_drop_noop (m : AMutex) :
    lock_future_drop m = m ∧ ((guard_drop m).1).wakers = [] :=
  ⟨rfl, rfl⟩

/-! ## Claim C9 -/

lemma runTcp_none : ∀ l : List TcpOp, runTcp (none : Option Int) l = (none, 0)
  | [] => rfl
  | op :: rest => by
    have ih := runTcp_none rest
    cases op <;> simp [runTcp, tcpStep, ih]

lemma runTcp_some_le_one (fd : Int) : ∀ l : List TcpOp, (runTcp (some fd) l).2 ≤ 1
  | [] => Nat.zero_le 1
  | op :: rest => by
    have hn := runTcp_none rest
    have hs := runTcp_some_le_one fd rest
    cases op <;> simp [runTcp, tcpStep, hn] <;> omega

/-- Claim C9: the close of a TcpStream takes the shared descriptor cell
from Some to None exactly once, and across any sequence of operations on
the shared cell (hence across all clones) the OS close is invoked at most
once; once the cell is None, every poll_read, poll_write, poll_flush and
poll_close immediately reports the socket-closed error with no syscall,
and a re-close or drop of the closed stream is a harmless no-op that never
re-invokes the underlying close. -/
theorem c9_close_idempotent (fd : Int) (l : List TcpOp) :
    (runTcp (some fd) l).2 ≤ 1
  ∧ runTcp (none : Option Int) l = (none, 0)
  ∧ tcpStep (some fd) TcpOp.opClose = (none, 1, TcpIoResult.closedOk)
  ∧ tcpStep none TcpOp.opClose = (none, 0, TcpIoResult.closedOk)
  ∧ tcpStep none TcpOp.opDrop = (none, 0, TcpIoResult.closedOk)
  ∧ tcpStep none TcpOp.opRead = (none, 0, TcpIoResult.closedError)
  ∧ tcpStep none TcpOp.opWrite = (none, 0, TcpIoResult.closedError)
  ∧ tcpStep none TcpOp.opFlush = (none, 0, TcpIoResult.closedError)
  ∧ tcpStep none TcpOp.opPollClose = (none, 0, TcpIoResult.closedError) :=
  ⟨runTcp_some_le_one fd l, runTcp_none l, rfl, rfl, rfl, rfl, rfl, rfl, rfl⟩

/-! ## Claim C10 -/

/-- Claim C10: the public asynchronous send path is unimplemented — both
the body of the Sender send method and the poll of the returned Send
future are todo placeholders in the source, so every call panics; only the
internal ChannelBox routines (try_send, send, try_recv) are implemented. -/
theorem c10_public_send_unimplemented (c : ChannelBox α N) (v : α) (w : Nat) :
    sender_send c v = PanicOr.panics ∧ send_future_poll c w = PanicOr.panics :=
  ⟨rfl, rfl⟩

end TarantoolCore
